import Mathlib

/-!
Shallow embedding of the research-assistant repository.

The repository drives a shared multi-agent conversation (an external,
LLM-backed coordinator) through fixed prompt pipelines, searches PubMed
through two sequential HTTP calls, and persists paper submissions.

Modelling conventions:
* The coordinator run (team.run_stream followed by message collection) is an
  explicit function parameter.  A stateful coordinator is a function
  taking and returning a state value of an arbitrary type, failing with an
  error value of an arbitrary type (Python exceptions become Except).
* Network responses are inputs: each HTTP phase of the PubMed client is a
  function from its request data to an optional response, where none stands
  for any raised exception (connection error, HTTP error status, JSON decode
  failure).
* Python dictionaries with optional keys become structures of Option fields.
* The uuid4 randomness consumed by submission-id generation is a natural
  number input, rendered to the 32-digit lowercase hexadecimal form that
  the Python uuid hex accessor produces.
-/

namespace ResearchAssistant

/-- Substring containment at the level of character lists: the needle occurs
verbatim and contiguously inside the haystack. -/
def ContainsSubstring (hay needle : String) : Prop :=
  needle.data <:+: hay.data

instance (hay needle : String) : Decidable (ContainsSubstring hay needle) := by
  unfold ContainsSubstring
  infer_instance

/-! ## Orchestrator (src/simple_research_assistant/orchestrator.py) -/

/-- Result dictionary of run_research_workflow. -/
structure WorkflowResult where
  topic : String
  literature : String
  synthesis : String
  extensions : String
  status : String
  deriving Repr, DecidableEq

/-- Stage A prompt of run_research_workflow (lit_prompt f-string). -/
def lit_prompt (topic : String) (max_papers : Nat) : String :=
  "Search for academic papers on: \"" ++ topic ++ "\"\nFind up to "
    ++ toString max_papers
    ++ " relevant papers.\nReturn DOI, title, authors, abstract, and link for each."

/-- Stage B prompt of run_research_workflow (syn_prompt f-string), embedding the
collected Stage A output. -/
def syn_prompt (literature_data : String) : String :=
  "Analyze and summarize these papers:\n" ++ literature_data
    ++ "\n\nCreate concise summaries with key findings."

/-- Stage C prompt of run_research_workflow (ext_prompt f-string), embedding the
collected Stage B output. -/
def ext_prompt (synthesis_data : String) : String :=
  "Based on these summaries:\n" ++ synthesis_data
    ++ "\n\nPropose 5 future research extensions with:\n- Title\n- Description  \n- One-line solution approach\n- Difficulty level"

/-- ResearchOrchestrator.run_research_workflow.  The coordinator is a stateful
run function (the shared SelectorGroupChat team): it receives the current team
state and the task prompt and either returns the collected text with the new
state or raises. -/
def run_research_workflow {σ ε : Type} (run : σ → String → Except ε (String × σ))
    (s : σ) (topic : String) (max_papers : Nat) : Except ε (WorkflowResult × σ) :=
  match run s (lit_prompt topic max_papers) with
  | .error e => .error e
  | .ok (literature_data, s₁) =>
    match run s₁ (syn_prompt literature_data) with
    | .error e => .error e
    | .ok (synthesis_data, s₂) =>
      match run s₂ (ext_prompt synthesis_data) with
      | .error e => .error e
      | .ok (extensions_data, s₃) =>
        .ok ({ topic := topic
               literature := literature_data
               synthesis := synthesis_data
               extensions := extensions_data
               status := "completed" }, s₃)

/-- Prompt built by ResearchOrchestrator.explain_concept.  The Python guard is
truthiness (if context:), so a None context and an empty-string context both
skip the context block. -/
def explain_prompt (concept : String) (context : Option String) : String :=
  let prompt := "Explain this concept in simple terms: " ++ concept
  let prompt := match context with
    | some c => if c.isEmpty then prompt else prompt ++ "\n\nContext: " ++ c
    | none => prompt
  prompt ++ "\n\nProvide: simple explanation, examples, analogies"

/-- ResearchOrchestrator.explain_concept: one coordinator run on the built
prompt, returning the collected text. -/
def explain_concept {ε : Type} (run : String → Except ε String)
    (concept : String) (context : Option String) : Except ε String :=
  run (explain_prompt concept context)

/-- Result dictionary of ResearchOrchestrator.check_paper. -/
structure CheckResult where
  feedback : String
  deriving Repr, DecidableEq

/-- Prompt built by ResearchOrchestrator.check_paper: the content is hard
truncated to its first 2000 characters (Python content[:2000]). -/
def check_paper_prompt (title content : String) : String :=
  "Check this paper's formatting:\n\nTitle: " ++ title ++ "\n\nContent:\n"
    ++ content.take 2000
    ++ "...\n\nProvide:\n1. Formatting score (0-100)\n2. Missing sections\n3. Recommendations\n4. Overall assessment"

/-- ResearchOrchestrator.check_paper: one coordinator run on the built prompt,
wrapping the collected text in the feedback field. -/
def check_paper {ε : Type} (run : String → Except ε String)
    (title content : String) : Except ε CheckResult :=
  match run (check_paper_prompt title content) with
  | .error e => .error e
  | .ok feedback => .ok { feedback := feedback }

/-- ResearchOrchestrator._collect_messages: the stream is the list of produced
turns, each carrying its text content when it has a content attribute; turns
with content are appended in arrival order and joined with newlines. -/
def collect_messages (stream : List (Option String)) : String :=
  let messages := stream.foldl
    (fun messages m =>
      match m with
      | some content => messages ++ [content]
      | none => messages) []
  String.intercalate "\n" messages

/-! ## PubMed client (src/simple_research_assistant/pubmed_utils.py) -/

/-- One esummary record, as the fields search_pubmed reads from the JSON
dictionary.  Each field is optional because the code reads it with .get and a
default.  An author entry is the optional value of its name key. -/
structure PaperData where
  title : Option String
  authors : Option (List (Option String))
  fulljournalname : Option String
  pubdate : Option String
  elocationid : Option String
  deriving Repr, DecidableEq

/-- Paper dictionary built by search_pubmed for one id. -/
structure Paper where
  pmid : String
  title : String
  authors : List String
  journal : String
  pubdate : String
  link : String
  doi : String
  deriving Repr, DecidableEq

/-- Author extraction of search_pubmed: slice the upstream entry list to its
first 3 entries, then keep the name of each sliced entry that has one. -/
def extract_authors (entries : List (Option String)) : List String :=
  (entries.take 3).filterMap id

/-- Per-id extraction of search_pubmed from a present esummary record. -/
def extract_paper (paper_id : String) (paper_data : PaperData) : Paper :=
  { pmid := paper_id
    title := paper_data.title.getD ""
    authors := extract_authors (paper_data.authors.getD [])
    journal := paper_data.fulljournalname.getD ""
    pubdate := paper_data.pubdate.getD ""
    link := "https://pubmed.ncbi.nlm.nih.gov/" ++ paper_id ++ "/"
    doi := (paper_data.elocationid.getD "").replace "doi: " "" }

/-- search_pubmed.  esearch maps the query and retmax to the response id list
(none models any raised exception in that phase, caught by the outer handler);
esummary maps the id list to the result map, keyed by id (none likewise models
a raised exception; a missing key models a per-record extraction failure, which
the inner handler turns into skipping that record). -/
def search_pubmed (esearch : String → Nat → Option (List String))
    (esummary : List String → Option (List (String × PaperData)))
    (query : String) (max_results : Nat) : List Paper :=
  match esearch query max_results with
  | none => []
  | some ids =>
    if ids.isEmpty then []
    else
      match esummary ids with
      | none => []
      | some result =>
        ids.filterMap fun paper_id =>
          (result.lookup paper_id).map (extract_paper paper_id)

/-! ## Backend (src/simple_research_assistant/backend.py) -/

/-- The 32-character lowercase hexadecimal rendering that the Python uuid hex
accessor produces for a 128-bit uuid value, most significant nibble first
(digit values below 16 render through Nat.digitChar exactly as Python hex
digits do: 0-9 then a-f). -/
def uuid_hex (n : Nat) : List Char :=
  (List.range 32).map fun i => (n / 16 ^ (31 - i) % 16).digitChar

/-- Submission-id generation of submit_paper:
SUB- followed by the first 8 uuid hex digits, uppercased. -/
def submission_id_of (n : Nat) : String :=
  "SUB-" ++ String.mk (((uuid_hex n).take 8).map Char.toUpper)

/-- Uppercase hexadecimal digit test, for stating the identifier format. -/
def isUpperHex (c : Char) : Bool :=
  "0123456789ABCDEF".data.contains c

/-- Request body of POST /api/submit-paper. -/
structure PaperSubmitRequest where
  title : String
  authors : List String
  content : String
  professor_email : String
  deriving Repr, DecidableEq

/-- Row persisted for one submission (PaperSubmission columns written by
submit_paper). -/
structure Submission where
  submission_id : String
  title : String
  authors : String
  content : String
  professor_email : String
  status : String
  feedback : String
  deriving Repr, DecidableEq

/-- Response body of POST /api/submit-paper. -/
structure SubmitResponse where
  submission_id : String
  status : String
  message : String
  submitted_at : String
  deriving Repr, DecidableEq

/-- Python str() of the check_paper feedback dictionary, as stored in the
feedback column.  This renders the common case only: the repr escaping Python
applies to quotes, backslashes and control characters inside the feedback
text is not modelled, and no theorem below evaluates this rendering. -/
def feedback_str (r : CheckResult) : String :=
  "\x7b\x27feedback\x27: \x27" ++ r.feedback ++ "\x27\x7d"

/-- submit_paper endpoint.  Inputs: the formatting check (a function of title
and content that may raise), the current store contents, the uuid4 value, the
current time string, and the request.  Output: the response or the propagated
error, together with the store contents afterwards.  The id is generated
first, the formatting check runs next, and only then is the row written. -/
def submit_paper {ε : Type} (check : String → String → Except ε CheckResult)
    (store : List Submission) (uuidVal : Nat) (now : String)
    (req : PaperSubmitRequest) : Except ε SubmitResponse × List Submission :=
  let submission_id := submission_id_of uuidVal
  match check req.title req.content with
  | .error e => (.error e, store)
  | .ok feedback =>
    let submission : Submission :=
      { submission_id := submission_id
        title := req.title
        authors := String.intercalate ", " req.authors
        content := req.content
        professor_email := req.professor_email
        status := "submitted"
        feedback := feedback_str feedback }
    (.ok { submission_id := submission_id
           status := "submitted"
           message := "Paper submitted to " ++ req.professor_email
           submitted_at := now }, store ++ [submission])

/-! ## Concrete coordinator and network instances, used to evaluate the
embedding on closed inputs -/

/-- A logging coordinator: always answers, recording each task prompt in its
state in call order. -/
def run_log (s : List String) (prompt : String) : Except Unit (String × List String) :=
  .ok ("reply" ++ toString s.length, s ++ [prompt])

/-- The workflow result produced by run_log from the empty log. -/
def wf_demo : WorkflowResult :=
  { topic := "graph neural networks"
    literature := "reply0"
    synthesis := "reply1"
    extensions := "reply2"
    status := "completed" }

/-- The prompt log produced by run_log across the three workflow stages. -/
def wf_log_final : List String :=
  [lit_prompt "graph neural networks" 5, syn_prompt "reply0", ext_prompt "reply1"]

/-- A coordinator whose first run succeeds and whose second run raises. -/
def run_failSecond (s : Nat) (_prompt : String) : Except String (String × Nat) :=
  if s = 0 then .ok ("stage-a-output", 1) else .error "model call failed"

/-- A stateless coordinator run echoing the task prompt back. -/
def run_echo (prompt : String) : Except Unit String :=
  .ok prompt

/-- A stateless coordinator run that always raises. -/
def run_raise (_prompt : String) : Except String String :=
  .error "model call failed"

/-- An esearch phase that raises. -/
def esearch_fail (_query : String) (_retmax : Nat) : Option (List String) :=
  none

/-- An esearch phase returning an empty id list. -/
def esearch_empty (_query : String) (_retmax : Nat) : Option (List String) :=
  some []

/-- An esearch phase returning two ids. -/
def esearch_two (_query : String) (_retmax : Nat) : Option (List String) :=
  some ["11", "22"]

/-- An esearch phase returning three ids. -/
def esearch_three (_query : String) (_retmax : Nat) : Option (List String) :=
  some ["1", "2", "3"]

/-- An esearch phase returning one id. -/
def esearch_one (_query : String) (_retmax : Nat) : Option (List String) :=
  some ["7"]

/-- An esummary phase that raises. -/
def esummary_fail (_ids : List String) : Option (List (String × PaperData)) :=
  none

/-- A well-formed esummary record with two authors. -/
def pd_demo : PaperData :=
  { title := some "Paper title"
    authors := some [some "Author One", some "Author Two"]
    fulljournalname := some "Journal"
    pubdate := some "2024"
    elocationid := some "doi: 10.1000/demo" }

/-- An esummary phase whose result map lacks the record for id 2: extracting
that one record fails while the other two succeed. -/
def esummary_missing_second (_ids : List String) : Option (List (String × PaperData)) :=
  some [("1", pd_demo), ("3", pd_demo)]

/-- An esummary record with four author entries, the first of which lacks a
name key. -/
def pd_four_authors : PaperData :=
  { title := some "Paper title"
    authors := some [none, some "A", some "B", some "C"]
    fulljournalname := some "Journal"
    pubdate := some "2024"
    elocationid := none }

/-- An esummary phase returning the four-author-entry record for id 7. -/
def esummary_four_authors (_ids : List String) : Option (List (String × PaperData)) :=
  some [("7", pd_four_authors)]

/-- The paper search_pubmed builds from pd_four_authors. -/
def paper_demo : Paper :=
  extract_paper "7" pd_four_authors

/-- A concrete submit-paper request body. -/
def req_demo : PaperSubmitRequest :=
  { title := "A Study"
    authors := ["Author One", "Author Two"]
    content := "Body text"
    professor_email := "prof@example.org" }

/-! ## Shared helper lemmas -/

/-- A string occurs verbatim inside any concatenation that surrounds it. -/
theorem contains_middle (a b c : String) : ContainsSubstring (a ++ b ++ c) b := by
  unfold ContainsSubstring
  rw [String.data_append, String.data_append]
  exact List.infix_append _ _ _

/-- The Stage B prompt embeds the Stage A output verbatim. -/
theorem syn_prompt_contains (s : String) : ContainsSubstring (syn_prompt s) s := by
  unfold syn_prompt
  exact contains_middle _ _ _

/-- The Stage C prompt embeds the Stage B output verbatim. -/
theorem ext_prompt_contains (s : String) : ContainsSubstring (ext_prompt s) s := by
  unfold ext_prompt
  exact contains_middle _ _ _

/-! ## Claims about the workflow sequencer -/

/-- Claim C1: for every topic and max_papers, run_research_workflow executes
its three stages strictly in order (each stage consumes the coordinator state
the previous stage produced), the Stage B prompt contains the entire Stage A
collected output verbatim as a substring, the Stage C prompt contains the
entire Stage B collected output verbatim as a substring, and the returned
result carries the original topic, the three stage texts, and status
completed. -/
theorem C1_workflow_stages_in_order {σ ε : Type}
    (run : σ → String → Except ε (String × σ)) (s : σ) (topic : String)
    (max_papers : Nat) (r : WorkflowResult) (s₃ : σ)
    (h : run_research_workflow run s topic max_papers = .ok (r, s₃)) :
    ∃ s₁ s₂,
      run s (lit_prompt topic max_papers) = .ok (r.literature, s₁) ∧
      run s₁ (syn_prompt r.literature) = .ok (r.synthesis, s₂) ∧
      run s₂ (ext_prompt r.synthesis) = .ok (r.extensions, s₃) ∧
      r.topic = topic ∧ r.status = "completed" ∧
      ContainsSubstring (syn_prompt r.literature) r.literature ∧
      ContainsSubstring (ext_prompt r.synthesis) r.synthesis := by
  unfold run_research_workflow at h
  cases h₁ : run s (lit_prompt topic max_papers) with
  | error e => simp [h₁] at h
  | ok p =>
    obtain ⟨a, s₁⟩ := p
    simp only [h₁] at h
    cases h₂ : run s₁ (syn_prompt a) with
    | error e => simp [h₂] at h
    | ok q =>
      obtain ⟨b, s₂⟩ := q
      simp only [h₂] at h
      cases h₃ : run s₂ (ext_prompt b) with
      | error e => simp [h₃] at h
      | ok t =>
        obtain ⟨c, s₃'⟩ := t
        simp only [h₃, Except.ok.injEq, Prod.mk.injEq] at h
        obtain ⟨hr, hs⟩ := h
        subst hs
        subst hr
        refine ⟨s₁, s₂, ?_, ?_, ?_, ?_, ?_, ?_, ?_⟩
        · rfl
        · exact h₂
        · exact h₃
        · rfl
        · rfl
        · exact syn_prompt_contains a
        · exact ext_prompt_contains b

/-- Witness for C1 on the logging coordinator: the three stages run in order,
each prompt embedding the previous collected output. -/
theorem C1_witness :
    ∃ s₁ s₂,
      run_log [] (lit_prompt "graph neural networks" 5) = .ok (wf_demo.literature, s₁) ∧
      run_log s₁ (syn_prompt wf_demo.literature) = .ok (wf_demo.synthesis, s₂) ∧
      run_log s₂ (ext_prompt wf_demo.synthesis) = .ok (wf_demo.extensions, wf_log_final) ∧
      wf_demo.topic = "graph neural networks" ∧ wf_demo.status = "completed" ∧
      ContainsSubstring (syn_prompt wf_demo.literature) wf_demo.literature ∧
      ContainsSubstring (ext_prompt wf_demo.synthesis) wf_demo.synthesis :=
  C1_workflow_stages_in_order run_log [] "graph neural networks" 5 wf_demo
    wf_log_final (by rfl)

/-- Claim C2: if the coordinator run of any of the three stages of
run_research_workflow raises an exception, the whole operation raises that
exception unmodified; the error outcome carries no WorkflowResult, so no
partial result reaches the caller. -/
theorem C2_workflow_error_propagates {σ ε : Type}
    (run : σ → String → Except ε (String × σ)) (s : σ) (topic : String)
    (max_papers : Nat) (e : ε) :
    (run s (lit_prompt topic max_papers) = .error e →
      run_research_workflow run s topic max_papers = .error e) ∧
    (∀ a s₁, run s (lit_prompt topic max_papers) = .ok (a, s₁) →
      run s₁ (syn_prompt a) = .error e →
      run_research_workflow run s topic max_papers = .error e) ∧
    (∀ a s₁ b s₂, run s (lit_prompt topic max_papers) = .ok (a, s₁) →
      run s₁ (syn_prompt a) = .ok (b, s₂) →
      run s₂ (ext_prompt b) = .error e →
      run_research_workflow run s topic max_papers = .error e) := by
  refine ⟨fun h₁ => ?_, fun a s₁ h₁ h₂ => ?_, fun a s₁ b s₂ h₁ h₂ h₃ => ?_⟩
  · simp [run_research_workflow, h₁]
  · simp [run_research_workflow, h₁, h₂]
  · simp [run_research_workflow, h₁, h₂, h₃]

/-- Witness for C2 on a coordinator whose second run raises: the whole
workflow raises the same error. -/
theorem C2_witness :
    run_research_workflow run_failSecond 0 "graph neural networks" 3 =
      .error "model call failed" :=
  (C2_workflow_error_propagates run_failSecond 0 "graph neural networks" 3
      "model call failed").2.1 "stage-a-output" 1 (by rfl) (by rfl)

/-! ## Claims about the PubMed client -/

/-- Length of a filterMap is the count of elements the function keeps. -/
theorem length_filterMap_eq_countP {α β : Type} (f : α → Option β) (l : List α) :
    (l.filterMap f).length = l.countP fun a => (f a).isSome := by
  induction l with
  | nil => rfl
  | cons x xs ih =>
    cases hx : f x <;> simp [List.filterMap_cons, hx, List.countP_cons, ih]

/-- Elements kept plus elements dropped add up to the length. -/
theorem countP_add_countP_not {α : Type} (p : α → Bool) (l : List α) :
    l.countP p + l.countP (fun a => !(p a)) = l.length := by
  induction l with
  | nil => rfl
  | cons x xs ih =>
    cases hx : p x <;> simp [List.countP_cons, hx, ← ih] <;> omega

/-- Claim C3: search_pubmed never raises to its caller: a raised id-search
call, an id-search yielding an empty id list, and a raised summary-fetch call
each make it return the empty list. -/
theorem C3_search_pubmed_degrades_to_empty
    (esearch : String → Nat → Option (List String))
    (esummary : List String → Option (List (String × PaperData)))
    (query : String) (max_results : Nat) :
    (esearch query max_results = none →
      search_pubmed esearch esummary query max_results = []) ∧
    (esearch query max_results = some [] →
      search_pubmed esearch esummary query max_results = []) ∧
    (∀ ids, esearch query max_results = some ids → esummary ids = none →
      search_pubmed esearch esummary query max_results = []) := by
  refine ⟨fun h => ?_, fun h => ?_, fun ids h h₂ => ?_⟩
  · simp [search_pubmed, h]
  · simp [search_pubmed, h]
  · cases ids with
    | nil => simp [search_pubmed, h]
    | cons i is => simp [search_pubmed, h, h₂]

/-- Witness for C3: the three degradation paths, each on a concrete stub. -/
theorem C3_witness :
    search_pubmed esearch_fail esummary_fail "CRISPR gene editing" 3 = [] ∧
    search_pubmed esearch_empty esummary_fail "CRISPR gene editing" 3 = [] ∧
    search_pubmed esearch_two esummary_fail "CRISPR gene editing" 3 = [] :=
  ⟨(C3_search_pubmed_degrades_to_empty esearch_fail esummary_fail
      "CRISPR gene editing" 3).1 rfl,
   (C3_search_pubmed_degrades_to_empty esearch_empty esummary_fail
      "CRISPR gene editing" 3).2.1 rfl,
   (C3_search_pubmed_degrades_to_empty esearch_two esummary_fail
      "CRISPR gene editing" 3).2.2 ["11", "22"] rfl rfl⟩

/-- Claim C4: when the id search yields the ids, the summary fetch yields the
result map, and exactly one id has no extractable record, search_pubmed
returns one record fewer than the number of ids: the malformed record is
skipped individually and does not abort the batch. -/
theorem C4_one_malformed_record_skipped
    (esearch : String → Nat → Option (List String))
    (esummary : List String → Option (List (String × PaperData)))
    (query : String) (max_results : Nat)
    (ids : List String) (result : List (String × PaperData))
    (hids : esearch query max_results = some ids)
    (hres : esummary ids = some result)
    (hone : ids.countP (fun i => !(result.lookup i).isSome) = 1) :
    (search_pubmed esearch esummary query max_results).length = ids.length - 1 := by
  have hne : ids ≠ [] := by
    intro hnil
    subst hnil
    simp at hone
  have hsearch : search_pubmed esearch esummary query max_results =
      ids.filterMap fun paper_id =>
        (result.lookup paper_id).map (extract_paper paper_id) := by
    simp [search_pubmed, hids, hres, List.isEmpty_iff, hne]
  rw [hsearch, length_filterMap_eq_countP]
  have hcong : (ids.countP fun i => ((result.lookup i).map (extract_paper i)).isSome)
      = ids.countP fun i => (result.lookup i).isSome := by
    apply List.countP_congr
    intro a _
    cases result.lookup a <;> simp
  rw [hcong]
  have hsplit : ids.countP (fun i => (result.lookup i).isSome)
      + ids.countP (fun i => !(result.lookup i).isSome) = ids.length :=
    countP_add_countP_not _ _
  omega

/-- Witness for C4: three ids of which the second has no record in the
result map give two returned papers. -/
theorem C4_witness :
    (search_pubmed esearch_three esummary_missing_second "CRISPR gene editing"
      5).length = (["1", "2", "3"] : List String).length - 1 :=
  C4_one_malformed_record_skipped esearch_three esummary_missing_second
    "CRISPR gene editing" 5 ["1", "2", "3"] [("1", pd_demo), ("3", pd_demo)]
    rfl rfl (by rfl)

/-- Claim C5 fails on the code: the code slices the upstream author list to
its first 3 entries before filtering for entries that carry a name, so a
returned record whose upstream author list has 4 entries, the first of them
nameless, carries 2 author names rather than 3. -/
theorem C5_counterexample :
    (pd_four_authors.authors.getD []).length = 4 ∧
    (search_pubmed esearch_one esummary_four_authors "CRISPR gene editing" 5).map
      (fun p => p.authors) = [["A", "B"]] :=
  ⟨rfl, rfl⟩

/-- Claim C5 amended: every record search_pubmed returns carries at most 3
author names — the names of those among the first 3 upstream entries that
carry one — and it carries exactly 3 precisely in the case that the upstream
list has at least 3 entries and each of its first 3 entries carries a name:
the conjuncts give the bound, both directions of that equivalence, and the
consequence that a list longer than 3 whose first 3 entries include a
nameless one yields fewer than 3 names. -/
theorem C5_authors_truncation_amended :
    (∀ (esearch : String → Nat → Option (List String))
       (esummary : List String → Option (List (String × PaperData)))
       (query : String) (max_results : Nat) (p : Paper),
        p ∈ search_pubmed esearch esummary query max_results →
        p.authors.length ≤ 3) ∧
    (∀ entries : List (Option String),
        3 ≤ entries.length → (∀ a ∈ entries.take 3, a.isSome) →
        (extract_authors entries).length = 3) ∧
    (∀ entries : List (Option String),
        (extract_authors entries).length = 3 →
        3 ≤ entries.length ∧ ∀ a ∈ entries.take 3, a.isSome) ∧
    (∀ entries : List (Option String),
        3 < entries.length → (∃ a ∈ entries.take 3, a = none) →
        (extract_authors entries).length < 3) := by
  refine ⟨?_, ?_, ?_, ?_⟩
  · intro esearch esummary query max_results p hp
    unfold search_pubmed at hp
    cases he : esearch query max_results with
    | none => simp [he] at hp
    | some ids =>
      simp only [he] at hp
      by_cases hids : ids.isEmpty
      · simp [hids] at hp
      · simp only [hids, Bool.false_eq_true, if_false] at hp
        cases hs : esummary ids with
        | none => simp [hs] at hp
        | some result =>
          simp only [hs] at hp
          obtain ⟨i, _, hi⟩ := List.mem_filterMap.mp hp
          cases hl : result.lookup i with
          | none => rw [hl] at hi; cases hi
          | some pd =>
            rw [hl] at hi
            obtain rfl : extract_paper i pd = p := by
              simpa using hi
            show (extract_authors (pd.authors.getD [])).length ≤ 3
            unfold extract_authors
            have h₁ := List.length_filterMap_le (@id (Option String))
              ((pd.authors.getD []).take 3)
            have h₂ : ((pd.authors.getD []).take 3).length ≤ 3 := by
              rw [List.length_take]; omega
            omega
  · intro entries h₃ hall
    unfold extract_authors
    rw [length_filterMap_eq_countP]
    have hfull : List.countP (fun a => (id a).isSome) (entries.take 3)
        = (entries.take 3).length :=
      List.countP_eq_length.mpr fun a ha => by simpa using hall a ha
    rw [hfull, List.length_take]
    omega
  · intro entries h₃
    unfold extract_authors at h₃
    rw [length_filterMap_eq_countP] at h₃
    have hle := @List.countP_le_length (Option String)
      (fun a => (id a).isSome) (entries.take 3)
    have hlen : (entries.take 3).length = min 3 entries.length :=
      List.length_take 3 entries
    constructor
    · omega
    · intro a ha
      have hfull : (entries.take 3).countP (fun a => (id a).isSome)
          = (entries.take 3).length := by omega
      simpa using List.countP_eq_length.mp hfull a ha
  · intro entries hlong hnone
    obtain ⟨a, ha, rfl⟩ := hnone
    unfold extract_authors
    rw [length_filterMap_eq_countP]
    have hne : (entries.take 3).countP (fun a => (id a).isSome)
        ≠ (entries.take 3).length := by
      intro heq
      have := List.countP_eq_length.mp heq _ ha
      simp at this
    have hle := @List.countP_le_length (Option String)
      (fun a => (id a).isSome) (entries.take 3)
    have hlen : (entries.take 3).length = min 3 entries.length :=
      List.length_take 3 entries
    omega

/-- Witness for C5 amended, exercising all four parts: the returned demo
record has at most 3 author names; a 4-entry upstream list whose first 3
entries all carry names is truncated to exactly 3; an extraction of exactly 3
names forces at least 3 entries all of whose first 3 carry names; and a
4-entry list with a nameless entry among its first 3 yields fewer than 3. -/
theorem C5_witness :
    paper_demo.authors.length ≤ 3 ∧
    (extract_authors [some "A", some "B", some "C", some "D"]).length = 3 ∧
    (3 ≤ ([some "A", some "B", some "C", some "D"] : List (Option String)).length ∧
      ∀ a ∈ ([some "A", some "B", some "C", some "D"] :
        List (Option String)).take 3, a.isSome) ∧
    (extract_authors [none, some "A", some "B", some "C"]).length < 3 :=
  ⟨C5_authors_truncation_amended.1 esearch_one esummary_four_authors
      "CRISPR gene editing" 5 paper_demo (List.mem_singleton.mpr rfl),
   C5_authors_truncation_amended.2.1 [some "A", some "B", some "C", some "D"]
      (by decide) (by decide),
   C5_authors_truncation_amended.2.2.1 [some "A", some "B", some "C", some "D"]
      (by decide),
   C5_authors_truncation_amended.2.2.2 [none, some "A", some "B", some "C"]
      (by decide) (by decide)⟩

/-! ## Claims about check_paper, message collection and the backend -/

/-- Claim C6: the check_paper prompt depends on the content only through its
first 2000 characters — two contents agreeing on their first 2000 characters
build the same prompt, so characters beyond index 2000 never reach the
coordinator — and the coordinator text comes back wrapped in the single
feedback field. -/
theorem C6_check_paper_truncates_content :
    (∀ title content other, content.take 2000 = other.take 2000 →
      check_paper_prompt title content = check_paper_prompt title other) ∧
    (∀ (ε : Type) (run : String → Except ε String) (title content feedback : String),
      run (check_paper_prompt title content) = .ok feedback →
      check_paper run title content = .ok { feedback := feedback }) := by
  constructor
  · intro title content other h
    unfold check_paper_prompt
    rw [h]
  · intro ε run title content feedback h
    unfold check_paper
    rw [h]

/-- Witness for C6: a concrete prompt-equality instance and a concrete
feedback wrapping on the echoing coordinator. -/
theorem C6_witness :
    check_paper_prompt "A Study" "Body text" = check_paper_prompt "A Study" "Body text" ∧
    check_paper run_echo "A Study" "Body text" =
      .ok { feedback := check_paper_prompt "A Study" "Body text" } :=
  ⟨C6_check_paper_truncates_content.1 "A Study" "Body text" "Body text" rfl,
   C6_check_paper_truncates_content.2 Unit run_echo "A Study" "Body text"
     (check_paper_prompt "A Study" "Body text") rfl⟩

/-- Claim C7: every generated submission identifier is SUB- followed by
exactly 8 uppercase hexadecimal characters, for every uuid4 value. -/
theorem C7_submission_id_format (n : Nat) :
    ∃ t : List Char,
      submission_id_of n = "SUB-" ++ String.mk t ∧
      t.length = 8 ∧ t.all isUpperHex = true := by
  refine ⟨((uuid_hex n).take 8).map Char.toUpper, rfl, ?_, ?_⟩
  · simp [uuid_hex, List.length_take]
  · rw [List.all_eq_true]
    intro c hc
    obtain ⟨d, hd, rfl⟩ := List.mem_map.mp hc
    have hd' : d ∈ uuid_hex n := List.mem_of_mem_take hd
    obtain ⟨i, _, rfl⟩ := List.mem_map.mp hd'
    have hlt : n / 16 ^ (31 - i) % 16 < 16 := Nat.mod_lt _ (by omega)
    have hup : ∀ k, k < 16 → isUpperHex k.digitChar.toUpper = true := by
      decide
    exact hup _ hlt

/-- Claim C8: collecting the coordinator message stream returns the
newline-separated concatenation, in arrival order, of the text content of
every turn that has textual content; turns without textual content are
skipped. -/
theorem C8_collect_messages_joins_contents (stream : List (Option String)) :
    collect_messages stream = String.intercalate "\n" (stream.filterMap id) := by
  have hfold : ∀ (rest : List (Option String)) (acc : List String),
      rest.foldl
        (fun messages m =>
          match m with
          | some content => messages ++ [content]
          | none => messages) acc = acc ++ rest.filterMap id := by
    intro rest
    induction rest with
    | nil => simp
    | cons x xs ih =>
      intro acc
      cases x <;> simp [List.filterMap_cons, ih]
  unfold collect_messages
  rw [hfold]
  simp

/-- Claim C10: when the formatting check raises, submit_paper propagates the
error and leaves the store unchanged: no submission row is persisted and no
submission identifier is returned, because the database write happens only
after the formatting check completes. -/
theorem C10_no_write_when_check_fails {ε : Type}
    (check : String → String → Except ε CheckResult)
    (store : List Submission) (uuidVal : Nat) (now : String)
    (req : PaperSubmitRequest) (e : ε)
    (h : check req.title req.content = .error e) :
    submit_paper check store uuidVal now req = (.error e, store) := by
  unfold submit_paper
  rw [h]

/-- Witness for C10: with the always-raising coordinator behind check_paper,
submitting persists nothing and returns the propagated error. -/
theorem C10_witness :
    submit_paper (check_paper run_raise) [] 0 "2025-01-01T00:00:00" req_demo =
      (.error "model call failed", []) :=
  C10_no_write_when_check_fails (check_paper run_raise) [] 0
    "2025-01-01T00:00:00" req_demo "model call failed" rfl

/-! ## Claims about explain_concept -/

/-- An infix of a concatenation lies in the left part, lies in the right part,
or straddles the boundary as a nonempty suffix of the left part followed by a
nonempty prefix of the right part. -/
theorem infix_append_cases {α : Type} {N X Y : List α} (h : N <:+: X ++ Y) :
    N <:+: X ∨ N <:+: Y ∨
      ∃ N₁ N₂, N = N₁ ++ N₂ ∧ N₁ ≠ [] ∧ N₂ ≠ [] ∧ N₁ <:+ X ∧ N₂ <+: Y := by
  obtain ⟨pre, post, hsum⟩ := h
  rw [List.append_assoc] at hsum
  rcases List.append_eq_append_iff.mp hsum with ⟨w, hX, hNp⟩ | ⟨w, hpre, hY⟩
  · rcases List.append_eq_append_iff.mp hNp with ⟨v, hw, hpost⟩ | ⟨v, hN, hYv⟩
    · left
      exact ⟨pre, v, by rw [hX, hw, List.append_assoc]⟩
    · by_cases hw0 : w = []
      · subst hw0
        right; left
        simp only [List.nil_append] at hN
        exact ⟨[], post, by rw [hYv, hN]; simp⟩
      · by_cases hv0 : v = []
        · subst hv0
          left
          rw [List.append_nil] at hN
          exact ⟨pre, [], by rw [hX, hN]; simp⟩
        · right; right
          exact ⟨w, v, hN, hw0, hv0, ⟨pre, hX.symm⟩, ⟨post, hYv.symm⟩⟩
  · right; left
    exact ⟨w, post, by rw [hY, List.append_assoc]⟩

/-- A nonempty prefix starts with the same head as the whole list. -/
theorem head?_of_initial {α : Type} {l₁ l₂ : List α} (h : l₁ <+: l₂)
    (hne : l₁ ≠ []) : l₂.head? = l₁.head? := by
  obtain ⟨t, rfl⟩ := h
  cases l₁ with
  | nil => exact absurd rfl hne
  | cons a l => rfl

/-- The value head? returns is a member. -/
theorem mem_of_head? {α : Type} {l : List α} {a : α} (h : l.head? = some a) :
    a ∈ l := by
  cases l with
  | nil => cases h
  | cons b t =>
    simp only [List.head?_cons, Option.some.injEq] at h
    rw [h]
    exact List.mem_cons_self a t

/-- The explain prompt built without a context block contains no occurrence
of the context marker unless the concept itself contains one: the marker
cannot lie in either fixed fragment (neither contains an uppercase C), and it
cannot straddle a boundary (it starts with an uppercase C, which the base
fragment does not end with, and it contains no newline, which the closing
fragment starts with). -/
theorem no_context_marker (concept : String)
    (hc : ¬ ContainsSubstring concept "Context:") :
    ¬ ContainsSubstring (explain_prompt concept none) "Context:" := by
  intro h
  have hval : explain_prompt concept none =
      "Explain this concept in simple terms: " ++ concept
        ++ "\n\nProvide: simple explanation, examples, analogies" := rfl
  rw [hval] at h
  unfold ContainsSubstring at h
  rw [String.data_append, String.data_append, List.append_assoc] at h
  rcases infix_append_cases h with hA | h' | ⟨N₁, N₂, hsplit, hne₁, hne₂, hsuf, hpre⟩
  · exact absurd (hA.subset (show 'C' ∈ "Context:".data by decide)) (by decide)
  · rcases infix_append_cases h' with hC | hB | ⟨N₁, N₂, hsplit, hne₁, hne₂, hsuf, hpre⟩
    · exact hc hC
    · exact absurd (hB.subset (show 'C' ∈ "Context:".data by decide)) (by decide)
    · have hsufN : N₂ <:+ "Context:".data := by
        rw [hsplit]; exact List.suffix_append _ _
      have hhead : N₂.head? = some '\n' :=
        (head?_of_initial hpre hne₂).symm.trans rfl
      exact absurd (hsufN.subset (mem_of_head? hhead)) (by decide)
  · have hpreN : N₁ <+: "Context:".data := by
      rw [hsplit]; exact List.prefix_append _ _
    have hhead : N₁.head? = some 'C' :=
      (head?_of_initial hpreN hne₁).symm.trans rfl
    exact absurd (hsuf.subset (mem_of_head? hhead)) (by decide)

/-- Claim C9 fails on the code at two explicit inputs: with context=None a
concept that itself contains the marker makes the prompt contain "Context:",
and a supplied-but-empty context adds no context block (Python truthiness),
so the block is not appended exactly when a context argument is supplied. -/
theorem C9_counterexample :
    ContainsSubstring (explain_prompt "Context:" none) "Context:" ∧
    explain_prompt "overfitting" (some "") = explain_prompt "overfitting" none :=
  ⟨by decide, rfl⟩

/-- Claim C9 amended: explain_concept builds the base instruction, then a
context block appended exactly when a non-empty context is supplied (a None
or empty context leaves the prompt as the base instruction followed directly
by the fixed request), then the fixed request for explanation, examples and
analogies; with context=None the prompt contains no occurrence of "Context:"
provided the concept itself contains none. -/
theorem C9_explain_prompt_amended (concept : String) (context : Option String) :
    (∀ c, context = some c → c ≠ "" →
      ContainsSubstring (explain_prompt concept context) "Context:") ∧
    (context = none ∨ context = some "" →
      explain_prompt concept context =
        "Explain this concept in simple terms: " ++ concept
          ++ "\n\nProvide: simple explanation, examples, analogies") ∧
    (¬ ContainsSubstring concept "Context:" →
      ¬ ContainsSubstring (explain_prompt concept none) "Context:") := by
  refine ⟨fun c hctx hne => ?_, fun hctx => ?_, no_context_marker concept⟩
  · subst hctx
    have hfalse : c.isEmpty = false := by
      rw [Bool.eq_false_iff]
      intro habs
      exact hne ((String.isEmpty_iff c).mp habs)
    have hval : explain_prompt concept (some c) =
        ("Explain this concept in simple terms: " ++ concept ++ "\n\nContext: " ++ c)
          ++ "\n\nProvide: simple explanation, examples, analogies" := by
      show (if c.isEmpty = true
          then "Explain this concept in simple terms: " ++ concept
          else "Explain this concept in simple terms: " ++ concept
            ++ "\n\nContext: " ++ c)
          ++ "\n\nProvide: simple explanation, examples, analogies" = _
      rw [hfalse]
      simp only [Bool.false_eq_true, if_false]
    rw [hval, String.append_assoc ("Explain this concept in simple terms: " ++ concept ++ "\n\nContext: ") c]
    have hmid : ContainsSubstring "\n\nContext: " "Context:" := by decide
    have houter : ContainsSubstring
        (("Explain this concept in simple terms: " ++ concept) ++ "\n\nContext: "
          ++ (c ++ "\n\nProvide: simple explanation, examples, analogies"))
        "\n\nContext: " :=
      contains_middle ("Explain this concept in simple terms: " ++ concept)
        "\n\nContext: "
        (c ++ "\n\nProvide: simple explanation, examples, analogies")
    exact List.IsInfix.trans hmid houter
  · rcases hctx with rfl | rfl
    · rfl
    · rfl

/-- Witness for C9 amended, at the concept of the spec example: a non-empty
context inserts the marker, a missing context leaves the base prompt, and the
marker never occurs without a context. -/
theorem C9_witness :
    ContainsSubstring (explain_prompt "overfitting" (some "machine learning"))
      "Context:" ∧
    explain_prompt "overfitting" none =
      "Explain this concept in simple terms: " ++ "overfitting"
        ++ "\n\nProvide: simple explanation, examples, analogies" ∧
    ¬ ContainsSubstring (explain_prompt "overfitting" none) "Context:" :=
  ⟨(C9_explain_prompt_amended "overfitting" (some "machine learning")).1
      "machine learning" rfl (by decide),
   (C9_explain_prompt_amended "overfitting" none).2.1 (Or.inl rfl),
   (C9_explain_prompt_amended "overfitting" none).2.2 (by decide)⟩

end ResearchAssistant
